import Mathlib

/-!
Verification development for the `ov2640` Rust crate (driver for the OV2640
ArduCam camera module).  The crate's three source files (`src/lib.rs`,
`src/config.rs`, `src/error.rs`) are shallowly embedded below: the generic
I2C/SPI peripherals and the delay capability are modelled by an explicit
environment (`Env`) deciding the outcome of each bus operation, the driver
struct `OV2640<I2C, SPI>` becomes an explicit device state (`DevState`)
threaded through every operation, and each fallible Rust method returning
`Result<T, OV2640Error<..>>` becomes a Lean function returning
`Except OV2640Error T` together with the successor state.  Every attempted
bus transaction and every delay call is recorded in an event trace so that
properties about which writes are issued (and in which order) can be stated.
-/

/-- Image format enumeration from `src/config.rs`. -/
inductive ImageFormat
  | JPEG
  | QVGA
deriving DecidableEq, Repr

/-- Resolution enumeration from `src/config.rs`. -/
inductive Resolution
  | R160x120
  | R176x144
  | R320x240
  | R352x288
  | R640x480
  | R800x600
  | R1024x768
  | R1280x1024
  | R1600x1200
deriving DecidableEq, Repr

/-- Light mode enumeration from `src/config.rs`. -/
inductive LightMode
  | Auto
  | Sunny
  | Cloudy
  | Office
  | Home
deriving DecidableEq, Repr

/-- Saturation enumeration from `src/config.rs`. -/
inductive Saturation
  | Saturation0
  | Saturation1
  | Saturation2
  | Saturation3
  | Saturation4
deriving DecidableEq, Repr

/-- Brightness enumeration from `src/config.rs`. -/
inductive Brightness
  | Brightness0
  | Brightness1
  | Brightness2
  | Brightness3
  | Brightness4
deriving DecidableEq, Repr

/-- Contrast enumeration from `src/config.rs`. -/
inductive Contrast
  | Contrast0
  | Contrast1
  | Contrast2
  | Contrast3
  | Contrast4
deriving DecidableEq, Repr

/-- Special effect enumeration from `src/config.rs`. -/
inductive SpecialEffect
  | Normal
  | Antique
  | Bluish
  | Greenish
  | Reddish
  | BlackWhite
  | Negative
  | BlackWhiteNegative
deriving DecidableEq, Repr

/-- The `Configuration` aggregate from `src/config.rs`. -/
structure Configuration where
  image_format : ImageFormat
  resolution : Resolution
  light_mode : LightMode
  saturation : Saturation
  brightness : Brightness
  contrast : Contrast
  special_effect : SpecialEffect
deriving DecidableEq, Repr

/-- The `ConfigurationBuilder` struct from `src/config.rs`: an optional
override for each of the seven configuration fields. -/
structure ConfigurationBuilder where
  image_format : Option ImageFormat
  resolution : Option Resolution
  light_mode : Option LightMode
  saturation : Option Saturation
  brightness : Option Brightness
  contrast : Option Contrast
  special_effect : Option SpecialEffect
deriving DecidableEq, Repr

/-- `impl Default for ConfigurationBuilder`: every field unset. -/
def ConfigurationBuilder.mkDefault : ConfigurationBuilder :=
  { image_format := none
    resolution := none
    light_mode := none
    saturation := none
    brightness := none
    contrast := none
    special_effect := none }

/-- `ConfigurationBuilder::new()` from `src/config.rs`, which is `Self::default()`. -/
def ConfigurationBuilder.new : ConfigurationBuilder :=
  ConfigurationBuilder.mkDefault

/-- `ConfigurationBuilder::build` from `src/config.rs`: each unset field
resolves to its documented default. -/
def ConfigurationBuilder.build (b : ConfigurationBuilder) : Configuration :=
  { image_format :=
      match b.image_format with
      | some image_format => image_format
      | none => ImageFormat.JPEG
    resolution :=
      match b.resolution with
      | some resolution => resolution
      | none => Resolution.R1024x768
    light_mode :=
      match b.light_mode with
      | some light_mode => light_mode
      | none => LightMode.Auto
    saturation :=
      match b.saturation with
      | some saturation => saturation
      | none => Saturation.Saturation0
    brightness :=
      match b.brightness with
      | some brightness => brightness
      | none => Brightness.Brightness0
    contrast :=
      match b.contrast with
      | some contrast => contrast
      | none => Contrast.Contrast0
    special_effect :=
      match b.special_effect with
      | some special_effect => special_effect
      | none => SpecialEffect.Normal }

/-- The error enumeration from `src/error.rs`.  The generic transport error
payloads `I2CErr` / `SPIErr` carried by `I2CError`/`SpiError` are dropped:
the driver never inspects them, only wraps and returns them. -/
inductive OV2640Error
  | CannotSetImageSizeOnNonJPEG
  | InvalidBufferSize
  | NoI2cPeripheral
  | I2CError
  | NoSpiPeripheral
  | SpiError
deriving DecidableEq, Repr

/-- Maximum frame buffer size constant `MAX_FIFO_SIZE` from `src/lib.rs`. -/
def MAX_FIFO_SIZE : Nat := 0x5FFFF

/-- I2C device address constant from `src/lib.rs`. -/
def I2C_ADDRESS : Nat := 0x60

/-- Clear FIFO mask constant from `src/lib.rs`. -/
def FIFO_CLEAR_MASK : Nat := 0x00

/-- Begin capture FIFO mask constant from `src/lib.rs`. -/
def FIFO_START_MASK : Nat := 0x00

/-- Capture complete mask constant from `src/lib.rs`. -/
def CAPTURE_COMPLETE_MASK : Nat := 0x08

/-- FIFO burst read marker constant from `src/lib.rs`. -/
def FIFO_BURST : Nat := 0x3C

/-- Modelled from the spec: the private module `src/register.rs` (declared by
`mod register;` in `src/lib.rs` but absent from the sources) supplies the
named register addresses and the bulk register tables.  The spec treats them
as opaque static external data ("the specific numeric register maps for each
visual mode (opaque lookup tables supplied to the sequencer)" are out of
scope), so they are modelled as an abstract record of byte addresses and
ordered (address, value) lists that every operation takes as a parameter. -/
structure RegisterData where
  TEST_REGISTER : Nat
  CHIP_ID_HIGH : Nat
  CHIP_ID_LOW : Nat
  FIFO : Nat
  TRIGGER : Nat
  FIFO_SIZE_1 : Nat
  FIFO_SIZE_2 : Nat
  FIFO_SIZE_3 : Nat
  JPEG_INIT_REGISTER : List (Nat × Nat)
  YUV422_REGISTERS : List (Nat × Nat)
  JPEG_REGISTERS : List (Nat × Nat)
  QVGA_REGISTERS : List (Nat × Nat)
  JPEG_160x120_REGISTERS : List (Nat × Nat)
  JPEG_176x144_REGISTERS : List (Nat × Nat)
  JPEG_320x240_REGISTERS : List (Nat × Nat)
  JPEG_352x288_REGISTERS : List (Nat × Nat)
  JPEG_640x480_REGISTERS : List (Nat × Nat)
  JPEG_800x600_REGISTERS : List (Nat × Nat)
  JPEG_1024x768_REGISTERS : List (Nat × Nat)
  JPEG_1280x1024_REGISTERS : List (Nat × Nat)
  JPEG_1600x1200_REGISTERS : List (Nat × Nat)

/-- Observable event of the driver: a bus transaction actually issued to a
transport, or a delay call.  A transaction attempted while the corresponding
peripheral has been taken (`None`) produces no event, because nothing reaches
a bus in that case. -/
inductive Event
  | i2cWrite (reg val : Nat)
  | i2cRead (reg : Nat)
  | spiWrite (bytes : List Nat)
  | spiRead (reg : Nat)
  | spiTransfer (len : Nat)
  | delayMs (ms : Nat)
deriving DecidableEq, Repr

/-- Environment deciding the behaviour of the two bus transports, indexed by
the per-bus operation counter: whether the n-th I2C transaction succeeds,
whether the n-th SPI transaction succeeds, the byte the n-th SPI transaction
returns when it is a single-register read, and the buffer contents produced
by the n-th SPI transaction when it is a burst `transfer_in_place`. -/
structure Env where
  i2cOk : Nat → Bool
  spiOk : Nat → Bool
  spiVal : Nat → Nat
  spiBurst : Nat → List Nat → List Nat

/-- Device state: the `OV2640` struct (its retained `Configuration` snapshot
and the presence of the two optional peripherals, `i2c : Option<I2C>` and
`spi : Option<SPI>` modelled by presence flags) together with the per-bus
operation counters the environment is indexed by and the event trace. -/
structure DevState where
  configuration : Configuration
  i2c : Bool
  spi : Bool
  i2cOps : Nat
  spiOps : Nat
  events : List Event
deriving Repr

/-- Sequencing of two fallible state transformers, mirroring Rust's `?`
operator: on success continue with the next operation, on failure return the
failure with the state reached so far. -/
def seqU {α : Type} (m : Except OV2640Error Unit × DevState)
    (k : DevState → Except OV2640Error α × DevState) :
    Except OV2640Error α × DevState :=
  match m with
  | (Except.ok _, s1) => k s1
  | (Except.error e, s1) => (Except.error e, s1)

/-- Private helper `OV2640::write_spi` from `src/lib.rs`: if the SPI
peripheral is present, issue `spi.write(&[address | 0x80, value])` (which the
transport may fail), otherwise fail with `NoSpiPeripheral`. -/
def OV2640.write_spi (env : Env) (address value : Nat) (s : DevState) :
    Except OV2640Error Unit × DevState :=
  if s.spi then
    let s1 : DevState :=
      { s with
        spiOps := s.spiOps + 1
        events := s.events ++ [Event.spiWrite [(address ||| 0x80) % 256, value % 256]] }
    (if env.spiOk s.spiOps then Except.ok () else Except.error OV2640Error.SpiError, s1)
  else
    (Except.error OV2640Error.NoSpiPeripheral, s)

/-- Private helper `OV2640::read_spi` from `src/lib.rs`: if the SPI
peripheral is present, issue `spi.transfer_in_place(&mut [address])` and
return the byte left in the one-byte buffer, otherwise fail with
`NoSpiPeripheral`. -/
def OV2640.read_spi (env : Env) (address : Nat) (s : DevState) :
    Except OV2640Error Nat × DevState :=
  if s.spi then
    let s1 : DevState :=
      { s with
        spiOps := s.spiOps + 1
        events := s.events ++ [Event.spiRead (address % 256)] }
    (if env.spiOk s.spiOps then Except.ok (env.spiVal s.spiOps % 256)
     else Except.error OV2640Error.SpiError, s1)
  else
    (Except.error OV2640Error.NoSpiPeripheral, s)

/-- Private helper `OV2640::write_register` from `src/lib.rs`: if the I2C
peripheral is present, issue `i2c.write(I2C_ADDRESS, &[register, value])`
(which the transport may fail), otherwise fail with `NoI2cPeripheral`. -/
def OV2640.write_register (env : Env) (register value : Nat) (s : DevState) :
    Except OV2640Error Unit × DevState :=
  if s.i2c then
    let s1 : DevState :=
      { s with
        i2cOps := s.i2cOps + 1
        events := s.events ++ [Event.i2cWrite (register % 256) (value % 256)] }
    (if env.i2cOk s.i2cOps then Except.ok () else Except.error OV2640Error.I2CError, s1)
  else
    (Except.error OV2640Error.NoI2cPeripheral, s)

/-- Private helper `OV2640::write_registers` from `src/lib.rs`: write each
(register, value) pair in order, aborting at the first failure. -/
def OV2640.write_registers (env : Env) (registers : List (Nat × Nat)) (s : DevState) :
    Except OV2640Error Unit × DevState :=
  match registers with
  | [] => (Except.ok (), s)
  | r :: rest =>
    seqU (OV2640.write_register env r.1 r.2 s) (fun s1 =>
      OV2640.write_registers env rest s1)

/-- Private helper `OV2640::read_register` from `src/lib.rs`: if the I2C
peripheral is present, issue `i2c.write_read(I2C_ADDRESS, &[register], buf)`
and return the byte read, otherwise fail with `NoI2cPeripheral`.  The byte
returned for the n-th I2C transaction is supplied by the environment through
`spiVal`'s I2C counterpart; since no claim depends on I2C read values, the
SPI value oracle is reused with the I2C counter. -/
def OV2640.read_register (env : Env) (register : Nat) (s : DevState) :
    Except OV2640Error Nat × DevState :=
  if s.i2c then
    let s1 : DevState :=
      { s with
        i2cOps := s.i2cOps + 1
        events := s.events ++ [Event.i2cRead (register % 256)] }
    (if env.i2cOk s.i2cOps then Except.ok (env.spiVal s.i2cOps % 256)
     else Except.error OV2640Error.I2CError, s1)
  else
    (Except.error OV2640Error.NoI2cPeripheral, s)

/-- The bulk table `OV2640::set_resolution` selects for each `Resolution`
variant in its `match` in `src/lib.rs`. -/
def resolution_registers (T : RegisterData) : Resolution → List (Nat × Nat)
  | Resolution.R160x120 => T.JPEG_160x120_REGISTERS
  | Resolution.R176x144 => T.JPEG_176x144_REGISTERS
  | Resolution.R320x240 => T.JPEG_320x240_REGISTERS
  | Resolution.R352x288 => T.JPEG_352x288_REGISTERS
  | Resolution.R640x480 => T.JPEG_640x480_REGISTERS
  | Resolution.R800x600 => T.JPEG_800x600_REGISTERS
  | Resolution.R1024x768 => T.JPEG_1024x768_REGISTERS
  | Resolution.R1280x1024 => T.JPEG_1280x1024_REGISTERS
  | Resolution.R1600x1200 => T.JPEG_1600x1200_REGISTERS

/-- `OV2640::set_resolution` from `src/lib.rs`: fails immediately with
`CannotSetImageSizeOnNonJPEG` when the stored image format is not JPEG;
otherwise writes the bulk table for the requested resolution and, only after
every write succeeded, commits the new resolution into the snapshot. -/
def OV2640.set_resolution (T : RegisterData) (env : Env) (resolution : Resolution)
    (s : DevState) : Except OV2640Error Unit × DevState :=
  if s.configuration.image_format ≠ ImageFormat.JPEG then
    (Except.error OV2640Error.CannotSetImageSizeOnNonJPEG, s)
  else
    seqU (OV2640.write_registers env (resolution_registers T resolution) s)
      (fun s1 =>
        (Except.ok (),
         { s1 with configuration := { s1.configuration with resolution := resolution } }))

/-- The `ImageFormat::JPEG` arm of the `match` inside
`OV2640::set_image_format` in `src/lib.rs`: the three JPEG initialization
bulk tables, the bank/0x15 writes, then re-applying the currently stored
resolution via `self.set_resolution(self.configuration.resolution)`. -/
def OV2640.jpeg_mode_tables (T : RegisterData) (env : Env) (s : DevState) :
    Except OV2640Error Unit × DevState :=
  seqU (OV2640.write_registers env T.JPEG_INIT_REGISTER s) (fun s4 =>
  seqU (OV2640.write_registers env T.YUV422_REGISTERS s4) (fun s5 =>
  seqU (OV2640.write_registers env T.JPEG_REGISTERS s5) (fun s6 =>
  seqU (OV2640.write_register env 0xFF 0x01 s6) (fun s7 =>
  seqU (OV2640.write_register env 0x15 0x00 s7) (fun s8 =>
    OV2640.set_resolution T env s8.configuration.resolution s8)))))

/-- `OV2640::set_image_format` from `src/lib.rs`: bank select write, reset
write, the 100 ms settling delay (`delay.delay_ms(100)`; unconditional in the
source once reached, so recorded as a trace event), then either the JPEG mode
tables followed by re-applying the currently stored resolution, or the QVGA
bulk table; only after all of that succeeds is the stored format updated. -/
def OV2640.set_image_format (T : RegisterData) (env : Env) (image_format : ImageFormat)
    (s : DevState) : Except OV2640Error Unit × DevState :=
  seqU (OV2640.write_register env 0xFF 0x01 s) (fun s1 =>
  seqU (OV2640.write_register env 0x12 0x80 s1) (fun s2 =>
    let s3 : DevState := { s2 with events := s2.events ++ [Event.delayMs 100] }
    seqU
      (match image_format with
       | ImageFormat.JPEG => OV2640.jpeg_mode_tables T env s3
       | ImageFormat.QVGA => OV2640.write_registers env T.QVGA_REGISTERS s3)
      (fun s9 =>
        (Except.ok (),
         { s9 with configuration := { s9.configuration with image_format := image_format } }))))

/-- The write sequence `src/lib.rs` issues for each `LightMode` value inside
`OV2640::set_light_mode` (after the bank select write). -/
def light_mode_registers : LightMode → List (Nat × Nat)
  | LightMode.Auto => [(0xC7, 0x00)]
  | LightMode.Sunny => [(0xC7, 0x40), (0xCC, 0x5E), (0xCD, 0x41), (0xCE, 0x54)]
  | LightMode.Cloudy => [(0xC7, 0x40), (0xCC, 0x65), (0xCD, 0x41), (0xCE, 0x4F)]
  | LightMode.Office => [(0xC7, 0x40), (0xCC, 0x52), (0xCD, 0x41), (0xCE, 0x06)]
  | LightMode.Home => [(0xC7, 0x40), (0xCC, 0x42), (0xCD, 0x3F), (0xCE, 0x71)]

/-- `OV2640::set_light_mode` from `src/lib.rs`: settings bank select, then
the light-mode specific write sequence, then commit the new light mode.
Consecutive `write_register` calls of the source are expressed through
`write_registers`, the same sequential abort-on-first-failure fold. -/
def OV2640.set_light_mode (env : Env) (light_mode : LightMode) (s : DevState) :
    Except OV2640Error Unit × DevState :=
  seqU (OV2640.write_registers env ((0xFF, 0x00) :: light_mode_registers light_mode) s)
    (fun s1 =>
      (Except.ok (),
       { s1 with configuration := { s1.configuration with light_mode := light_mode } }))

/-- The two writes `src/lib.rs` issues for each `Saturation` level inside
`OV2640::set_saturation` (both to register 0x7D, intentionally duplicated). -/
def saturation_registers : Saturation → List (Nat × Nat)
  | Saturation.Saturation0 => [(0x7D, 0x68), (0x7D, 0x68)]
  | Saturation.Saturation1 => [(0x7D, 0x58), (0x7D, 0x58)]
  | Saturation.Saturation2 => [(0x7D, 0x48), (0x7D, 0x48)]
  | Saturation.Saturation3 => [(0x7D, 0x38), (0x7D, 0x38)]
  | Saturation.Saturation4 => [(0x7D, 0x28), (0x7D, 0x28)]

/-- `OV2640::set_saturation` from `src/lib.rs`: the four bank/setup writes,
the level-specific pair of writes, then commit.  Consecutive
`write_register` calls of the source are expressed through
`write_registers`, which is the same sequential abort-on-first-failure
fold. -/
def OV2640.set_saturation (env : Env) (saturation : Saturation) (s : DevState) :
    Except OV2640Error Unit × DevState :=
  seqU
    (OV2640.write_registers env
      ([(0xFF, 0x00), (0x7C, 0x00), (0x7D, 0x02), (0x7C, 0x04)] ++
        saturation_registers saturation) s)
    (fun s1 =>
      (Except.ok (),
       { s1 with configuration := { s1.configuration with saturation := saturation } }))

/-- The single write `src/lib.rs` issues for each `Brightness` level inside
`OV2640::set_brightness`. -/
def brightness_registers : Brightness → List (Nat × Nat)
  | Brightness.Brightness0 => [(0x7D, 0x40)]
  | Brightness.Brightness1 => [(0x7D, 0x30)]
  | Brightness.Brightness2 => [(0x7D, 0x20)]
  | Brightness.Brightness3 => [(0x7D, 0x10)]
  | Brightness.Brightness4 => [(0x7D, 0x00)]

/-- `OV2640::set_brightness` from `src/lib.rs`: four bank writes, the
level-specific write, a trailing `(0x7D, 0x00)` write, then commit. -/
def OV2640.set_brightness (env : Env) (brightness : Brightness) (s : DevState) :
    Except OV2640Error Unit × DevState :=
  seqU
    (OV2640.write_registers env
      ([(0xFF, 0x00), (0x7C, 0x00), (0x7D, 0x04), (0x7C, 0x09)] ++
        brightness_registers brightness ++ [(0x7D, 0x00)]) s)
    (fun s1 =>
      (Except.ok (),
       { s1 with configuration := { s1.configuration with brightness := brightness } }))

/-- The two writes `src/lib.rs` issues for each `Contrast` level inside
`OV2640::set_contrast`. -/
def contrast_registers : Contrast → List (Nat × Nat)
  | Contrast.Contrast0 => [(0x7D, 0x28), (0x7D, 0x0C)]
  | Contrast.Contrast1 => [(0x7D, 0x24), (0x7D, 0x16)]
  | Contrast.Contrast2 => [(0x7D, 0x20), (0x7D, 0x20)]
  | Contrast.Contrast3 => [(0x7D, 0x20), (0x7D, 0x2A)]
  | Contrast.Contrast4 => [(0x7D, 0x18), (0x7D, 0x34)]

/-- `OV2640::set_contrast` from `src/lib.rs`: five bank/setup writes, the
level-specific pair, a trailing `(0x7D, 0x06)` write, then commit. -/
def OV2640.set_contrast (env : Env) (contrast : Contrast) (s : DevState) :
    Except OV2640Error Unit × DevState :=
  seqU
    (OV2640.write_registers env
      ([(0xFF, 0x00), (0x7C, 0x00), (0x7D, 0x04), (0x7C, 0x07), (0x7D, 0x20)] ++
        contrast_registers contrast ++ [(0x7D, 0x06)]) s)
    (fun s1 =>
      (Except.ok (),
       { s1 with configuration := { s1.configuration with contrast := contrast } }))

/-- The four writes `src/lib.rs` issues for each `SpecialEffect` value inside
`OV2640::set_special_effect`. -/
def special_effect_registers : SpecialEffect → List (Nat × Nat)
  | SpecialEffect.Antique => [(0x7D, 0x18), (0x7C, 0x05), (0x7D, 0x40), (0x7D, 0xA6)]
  | SpecialEffect.Bluish => [(0x7D, 0x18), (0x7C, 0x05), (0x7D, 0xA0), (0x7D, 0x40)]
  | SpecialEffect.Greenish => [(0x7D, 0x18), (0x7C, 0x05), (0x7D, 0x40), (0x7D, 0x40)]
  | SpecialEffect.Reddish => [(0x7D, 0x18), (0x7C, 0x05), (0x7D, 0x40), (0x7D, 0xC0)]
  | SpecialEffect.BlackWhite => [(0x7D, 0x18), (0x7C, 0x05), (0x7D, 0x80), (0x7D, 0x80)]
  | SpecialEffect.Negative => [(0x7D, 0x40), (0x7C, 0x05), (0x7D, 0x80), (0x7D, 0x80)]
  | SpecialEffect.BlackWhiteNegative => [(0x7D, 0x58), (0x7C, 0x05), (0x7D, 0x80), (0x7D, 0x80)]
  | SpecialEffect.Normal => [(0x7D, 0x00), (0x7C, 0x05), (0x7D, 0x80), (0x7D, 0x80)]

/-- `OV2640::set_special_effect` from `src/lib.rs`: two bank writes, the
effect-specific four writes, then commit. -/
def OV2640.set_special_effect (env : Env) (special_effect : SpecialEffect) (s : DevState) :
    Except OV2640Error Unit × DevState :=
  seqU
    (OV2640.write_registers env
      ([(0xFF, 0x00), (0x7C, 0x00)] ++ special_effect_registers special_effect) s)
    (fun s1 =>
      (Except.ok (),
       { s1 with
         configuration := { s1.configuration with special_effect := special_effect } }))

/-- `OV2640::init` from `src/lib.rs`: apply image format, resolution, light
mode, saturation, brightness, contrast and special effect, in that order,
each argument read from the then-current stored configuration. -/
def OV2640.init (T : RegisterData) (env : Env) (s : DevState) :
    Except OV2640Error Unit × DevState :=
  seqU (OV2640.set_image_format T env s.configuration.image_format s) (fun s1 =>
  seqU (OV2640.set_resolution T env s1.configuration.resolution s1) (fun s2 =>
  seqU (OV2640.set_light_mode env s2.configuration.light_mode s2) (fun s3 =>
  seqU (OV2640.set_saturation env s3.configuration.saturation s3) (fun s4 =>
  seqU (OV2640.set_brightness env s4.configuration.brightness s4) (fun s5 =>
  seqU (OV2640.set_contrast env s5.configuration.contrast s5) (fun s6 =>
    OV2640.set_special_effect env s6.configuration.special_effect s6))))))

/-- `OV2640::set_configuration` from `src/lib.rs`: replace the stored
snapshot with the new configuration, then re-run `init` over it. -/
def OV2640.set_configuration (T : RegisterData) (env : Env) (configuration : Configuration)
    (s : DevState) : Except OV2640Error Unit × DevState :=
  OV2640.init T env { s with configuration := configuration }

/-- `OV2640::flush_fifo` from `src/lib.rs`. -/
def OV2640.flush_fifo (T : RegisterData) (env : Env) (s : DevState) :
    Except OV2640Error Unit × DevState :=
  OV2640.write_spi env T.FIFO FIFO_CLEAR_MASK s

/-- `OV2640::start_capture` from `src/lib.rs`: clear marker then start
marker, both to the FIFO control register. -/
def OV2640.start_capture (T : RegisterData) (env : Env) (s : DevState) :
    Except OV2640Error Unit × DevState :=
  seqU (OV2640.write_spi env T.FIFO FIFO_CLEAR_MASK s) (fun s1 =>
    OV2640.write_spi env T.FIFO FIFO_START_MASK s1)

/-- `OV2640::is_capture_done` from `src/lib.rs`: read the trigger register
and test the capture-complete bit. -/
def OV2640.is_capture_done (T : RegisterData) (env : Env) (s : DevState) :
    Except OV2640Error Bool × DevState :=
  match OV2640.read_spi env T.TRIGGER s with
  | (Except.ok v, s1) => (Except.ok (decide (v &&& CAPTURE_COMPLETE_MASK ≠ 0)), s1)
  | (Except.error e, s1) => (Except.error e, s1)

/-- `OV2640::image_size` from `src/lib.rs`: read the three FIFO length
registers in order, then reassemble `u32::from_be_bytes([0, len3, len2,
len1])`, that is `len3 * 2^16 + len2 * 2^8 + len1`. -/
def OV2640.image_size (T : RegisterData) (env : Env) (s : DevState) :
    Except OV2640Error Nat × DevState :=
  match OV2640.read_spi env T.FIFO_SIZE_1 s with
  | (Except.error e, s1) => (Except.error e, s1)
  | (Except.ok len1, s1) =>
    match OV2640.read_spi env T.FIFO_SIZE_2 s1 with
    | (Except.error e, s2) => (Except.error e, s2)
    | (Except.ok len2, s2) =>
      match OV2640.read_spi env T.FIFO_SIZE_3 s2 with
      | (Except.error e, s3) => (Except.error e, s3)
      | (Except.ok len3, s3) =>
        (Except.ok (len3 * 65536 + len2 * 256 + len1), s3)

/-- `OV2640::read_image` from `src/lib.rs`: measure the image size; fail with
`InvalidBufferSize` when the destination buffer is shorter; otherwise (SPI
present) issue the burst marker write `spi.write(&[FIFO_BURST])` followed by
one `spi.transfer_in_place(buffer)`, returning the measured length.  The
result carries the (possibly rewritten) destination buffer alongside. -/
def OV2640.read_image (T : RegisterData) (env : Env) (buffer : List Nat) (s : DevState) :
    (Except OV2640Error Nat × List Nat) × DevState :=
  match OV2640.image_size T env s with
  | (Except.error e, s1) => ((Except.error e, buffer), s1)
  | (Except.ok image_size, s1) =>
    if buffer.length < image_size then
      ((Except.error OV2640Error.InvalidBufferSize, buffer), s1)
    else if s1.spi then
      let okW := env.spiOk s1.spiOps
      let s2 : DevState :=
        { s1 with
          spiOps := s1.spiOps + 1
          events := s1.events ++ [Event.spiWrite [FIFO_BURST]] }
      if okW then
        let okT := env.spiOk s2.spiOps
        let s3 : DevState :=
          { s2 with
            spiOps := s2.spiOps + 1
            events := s2.events ++ [Event.spiTransfer buffer.length] }
        if okT then ((Except.ok image_size, env.spiBurst s2.spiOps buffer), s3)
        else ((Except.error OV2640Error.SpiError, buffer), s3)
      else ((Except.error OV2640Error.SpiError, buffer), s2)
    else ((Except.error OV2640Error.NoSpiPeripheral, buffer), s1)

/-- `OV2640::take_spi` from `src/lib.rs`: `self.spi.take()` — returns whether
the SPI peripheral was present and leaves the slot empty. -/
def OV2640.take_spi (s : DevState) : Bool × DevState :=
  (s.spi, { s with spi := false })

/-- `OV2640::take_i2c` from `src/lib.rs`: `self.i2c.take()`. -/
def OV2640.take_i2c (s : DevState) : Bool × DevState :=
  (s.i2c, { s with i2c := false })

/-- `OV2640::new` from `src/lib.rs`: default-built configuration, given
peripheral presence; counters and trace start empty. -/
def OV2640.new (i2c spi : Bool) : DevState :=
  { configuration := ConfigurationBuilder.mkDefault.build
    i2c := i2c
    spi := spi
    i2cOps := 0
    spiOps := 0
    events := [] }

/-- Number of delay events in a trace. -/
def delayCount : List Event → Nat
  | [] => 0
  | Event.delayMs _ :: rest => delayCount rest + 1
  | Event.i2cWrite _ _ :: rest => delayCount rest
  | Event.i2cRead _ :: rest => delayCount rest
  | Event.spiWrite _ :: rest => delayCount rest
  | Event.spiRead _ :: rest => delayCount rest
  | Event.spiTransfer _ :: rest => delayCount rest

/-- A state whose event trace extends another's by delay-free events only. -/
def DelayFreeExt (s s' : DevState) : Prop :=
  ∃ t, s'.events = s.events ++ t ∧ delayCount t = 0

/-- Concrete register data instance used to evaluate the model at concrete
inputs: the claims hold for every table, so small representative tables
suffice. -/
def T0 : RegisterData :=
  { TEST_REGISTER := 0x00
    CHIP_ID_HIGH := 0x0A
    CHIP_ID_LOW := 0x0B
    FIFO := 0x04
    TRIGGER := 0x41
    FIFO_SIZE_1 := 0x42
    FIFO_SIZE_2 := 0x43
    FIFO_SIZE_3 := 0x44
    JPEG_INIT_REGISTER := [(0xFF, 0x00), (0x2C, 0xFF), (0x2E, 0xDF)]
    YUV422_REGISTERS := [(0xFF, 0x00), (0x05, 0x00)]
    JPEG_REGISTERS := [(0xE0, 0x14), (0xE1, 0x77)]
    QVGA_REGISTERS := [(0xFF, 0x00), (0x2C, 0xFF)]
    JPEG_160x120_REGISTERS := [(0xFF, 0x01)]
    JPEG_176x144_REGISTERS := [(0xFF, 0x01)]
    JPEG_320x240_REGISTERS := [(0xFF, 0x01)]
    JPEG_352x288_REGISTERS := [(0xFF, 0x01)]
    JPEG_640x480_REGISTERS := [(0xFF, 0x01)]
    JPEG_800x600_REGISTERS := [(0xFF, 0x01)]
    JPEG_1024x768_REGISTERS := [(0xFF, 0x01)]
    JPEG_1280x1024_REGISTERS := [(0xFF, 0x01)]
    JPEG_1600x1200_REGISTERS := [(0xFF, 0x01)] }

/-- Default configuration (what `ConfigurationBuilder::default().build()`
produces). -/
def cfgDefault : Configuration := ConfigurationBuilder.mkDefault.build

/-- Default configuration with the stored format changed to QVGA. -/
def cfgQVGA : Configuration := { cfgDefault with image_format := ImageFormat.QVGA }

/-- Fresh device with both peripherals present and the default (JPEG)
configuration. -/
def sJPEG : DevState :=
  { configuration := cfgDefault, i2c := true, spi := true, i2cOps := 0, spiOps := 0,
    events := [] }

/-- Fresh device with both peripherals present whose stored format is QVGA. -/
def sQVGA : DevState := { sJPEG with configuration := cfgQVGA }

/-- Transport environment in which every bus operation succeeds and every
SPI read returns 0. -/
def envOkAll : Env :=
  { i2cOk := fun _ => true, spiOk := fun _ => true, spiVal := fun _ => 0,
    spiBurst := fun _ b => b }

/-- Transport environment in which every I2C write fails. -/
def envI2cFail : Env :=
  { i2cOk := fun _ => false, spiOk := fun _ => true, spiVal := fun _ => 0,
    spiBurst := fun _ b => b }

/-- Transport environment in which the first two I2C writes succeed and the
third (index 2) fails. -/
def envFailAt2 : Env :=
  { i2cOk := fun n => decide (n < 2), spiOk := fun _ => true, spiVal := fun _ => 0,
    spiBurst := fun _ b => b }

/-- Transport environment whose SPI reads all return 0xFF. -/
def envFF : Env :=
  { i2cOk := fun _ => true, spiOk := fun _ => true, spiVal := fun _ => 0xFF,
    spiBurst := fun _ b => b }

/-- Transport environment whose n-th SPI operation reads byte n+1 (so the
three length reads return 0x01, 0x02, 0x03). -/
def env123 : Env :=
  { i2cOk := fun _ => true, spiOk := fun _ => true, spiVal := fun n => n + 1,
    spiBurst := fun _ b => b }

theorem delayCount_append (a b : List Event) :
    delayCount (a ++ b) = delayCount a + delayCount b := by
  induction a with
  | nil => simp [delayCount]
  | cons e rest ih => cases e <;> simp [delayCount, ih, Nat.add_right_comm]

theorem write_register_snd (env : Env) (r v : Nat) (s : DevState) :
    (OV2640.write_register env r v s).2 =
      if s.i2c then
        { s with
          i2cOps := s.i2cOps + 1
          events := s.events ++ [Event.i2cWrite (r % 256) (v % 256)] }
      else s := by
  unfold OV2640.write_register
  by_cases h : s.i2c = true <;> simp [h]

theorem write_register_fst (env : Env) (r v : Nat) (s : DevState) :
    (OV2640.write_register env r v s).1 =
      if s.i2c then
        (if env.i2cOk s.i2cOps then Except.ok () else Except.error OV2640Error.I2CError)
      else Except.error OV2640Error.NoI2cPeripheral := by
  unfold OV2640.write_register
  by_cases h : s.i2c = true <;> simp [h]

/-- Footprint of `write_registers`: it never touches the stored
configuration or the peripheral slots, and only appends delay-free events. -/
theorem write_registers_state (env : Env) (l : List (Nat × Nat)) : ∀ s : DevState,
    ((OV2640.write_registers env l s).2).configuration = s.configuration ∧
    ((OV2640.write_registers env l s).2).i2c = s.i2c ∧
    ((OV2640.write_registers env l s).2).spi = s.spi ∧
    ∃ t, ((OV2640.write_registers env l s).2).events = s.events ++ t ∧ delayCount t = 0 := by
  induction l with
  | nil =>
    intro s
    exact ⟨rfl, rfl, rfl, [], by simp [OV2640.write_registers], rfl⟩
  | cons r rest ih =>
    intro s
    have hstep := write_register_snd env r.1 r.2 s
    unfold OV2640.write_registers
    rcases h : OV2640.write_register env r.1 r.2 s with ⟨res, s1⟩
    rw [h] at hstep
    simp only at hstep
    have hs1 : s1.configuration = s.configuration ∧ s1.i2c = s.i2c ∧ s1.spi = s.spi ∧
        ∃ t0, s1.events = s.events ++ t0 ∧ delayCount t0 = 0 := by
      by_cases hb : s.i2c = true
      · simp only [hb, if_true] at hstep
        subst hstep
        exact ⟨rfl, hb.symm ▸ rfl, rfl, [Event.i2cWrite (r.1 % 256) (r.2 % 256)], rfl, rfl⟩
      · simp only [hb, if_false, Bool.false_eq_true] at hstep
        subst hstep
        exact ⟨rfl, rfl, rfl, [], by simp, rfl⟩
    cases res with
    | error e =>
      simpa only [seqU] using hs1
    | ok a =>
      simp only [seqU]
      obtain ⟨hc, hi2, hsp, t, ht, hd⟩ := ih s1
      obtain ⟨hc0, hi0, hsp0, t0, ht0, hd0⟩ := hs1
      refine ⟨by rw [hc, hc0], by rw [hi2, hi0], by rw [hsp, hsp0], t0 ++ t, ?_, ?_⟩
      · rw [ht, ht0, List.append_assoc]
      · rw [delayCount_append, hd, hd0]

theorem write_register_config (env : Env) (r v : Nat) (s : DevState) :
    ((OV2640.write_register env r v s).2).configuration = s.configuration := by
  rw [write_register_snd]
  split <;> rfl

/-- All-success characterization of `write_registers`: with the I2C
peripheral present and a transport that never fails, the whole table is
written in order and the call succeeds. -/
theorem write_registers_ok (env : Env) (hall : ∀ n, env.i2cOk n = true)
    (l : List (Nat × Nat)) : ∀ s : DevState, s.i2c = true →
    OV2640.write_registers env l s =
      (Except.ok (),
       { s with
         i2cOps := s.i2cOps + l.length
         events := s.events ++ l.map (fun r => Event.i2cWrite (r.1 % 256) (r.2 % 256)) }) := by
  induction l with
  | nil =>
    intro s hs
    simp [OV2640.write_registers]
  | cons r rest ih =>
    intro s hs
    unfold OV2640.write_registers
    have h1 : OV2640.write_register env r.1 r.2 s =
        (Except.ok (),
         { s with
           i2cOps := s.i2cOps + 1
           events := s.events ++ [Event.i2cWrite (r.1 % 256) (r.2 % 256)] }) := by
      unfold OV2640.write_register
      simp [hs, hall]
    rw [h1]
    simp only [seqU]
    rw [ih { s with
             i2cOps := s.i2cOps + 1
             events := s.events ++ [Event.i2cWrite (r.1 % 256) (r.2 % 256)] } hs]
    simp [List.append_assoc, Nat.add_assoc, Nat.add_comm, Nat.add_left_comm]

/-- Sequencing preserves a configuration invariant that holds of the first
operation's result on every outcome and is preserved by the continuation. -/
theorem seqU_config_of {α : Type} {m : Except OV2640Error Unit × DevState}
    {k : DevState → Except OV2640Error α × DevState} {c : Configuration}
    (hm : (m.2).configuration = c)
    (hk : ∀ s1, s1.configuration = c → ((k s1).2).configuration = c) :
    ((seqU m k).2).configuration = c := by
  rcases m with ⟨res, s1⟩
  cases res with
  | ok a => exact hk s1 hm
  | error e => exact hm

/-- Case analysis of a sequenced operation whose first part preserves the
configuration `c` on every outcome: either the whole succeeds and the
continuation's success clause holds, or it fails with the configuration
still `c`. -/
theorem seqU_cases {m : Except OV2640Error Unit × DevState}
    {k : DevState → Except OV2640Error Unit × DevState} {c d : Configuration}
    (hm : (m.2).configuration = c)
    (hk : ∀ s1, s1.configuration = c →
      (((k s1).1 = Except.ok () ∧ ((k s1).2).configuration = d) ∨
       (∃ e, (k s1).1 = Except.error e ∧ ((k s1).2).configuration = c))) :
    ((seqU m k).1 = Except.ok () ∧ ((seqU m k).2).configuration = d) ∨
    (∃ e, (seqU m k).1 = Except.error e ∧ ((seqU m k).2).configuration = c) := by
  rcases m with ⟨res, s1⟩
  cases res with
  | ok a => exact hk s1 hm
  | error e => exact Or.inr ⟨e, rfl, hm⟩

/-- `set_resolution` requested with the currently stored resolution leaves
the stored configuration unchanged on every outcome. -/
theorem set_resolution_own_config (T : RegisterData) (env : Env) (s : DevState) :
    ((OV2640.set_resolution T env s.configuration.resolution s).2).configuration =
      s.configuration := by
  unfold OV2640.set_resolution
  split
  · rfl
  · refine seqU_config_of ((write_registers_state env _ s).1) ?_
    intro s1 h1
    simp only
    rw [h1]

/-- The JPEG-arm table loads of `set_image_format` leave the stored
configuration unchanged on every outcome. -/
theorem jpeg_mode_tables_config (T : RegisterData) (env : Env) (s : DevState) :
    ((OV2640.jpeg_mode_tables T env s).2).configuration = s.configuration := by
  unfold OV2640.jpeg_mode_tables
  refine seqU_config_of ((write_registers_state env _ s).1) ?_
  intro s4 h4
  refine seqU_config_of (by rw [(write_registers_state env _ s4).1, h4]) ?_
  intro s5 h5
  refine seqU_config_of (by rw [(write_registers_state env _ s5).1, h5]) ?_
  intro s6 h6
  refine seqU_config_of (by rw [write_register_config, h6]) ?_
  intro s7 h7
  refine seqU_config_of (by rw [write_register_config, h7]) ?_
  intro s8 h8
  rw [set_resolution_own_config, h8]

/-- Outcome/configuration case analysis of `set_image_format`: either it
succeeds and the stored format is the requested one (all other fields
unchanged), or it fails and the whole stored configuration is unchanged. -/
theorem set_image_format_cases (T : RegisterData) (env : Env) (fmt : ImageFormat)
    (s : DevState) :
    ((OV2640.set_image_format T env fmt s).1 = Except.ok () ∧
     ((OV2640.set_image_format T env fmt s).2).configuration =
       { s.configuration with image_format := fmt }) ∨
    (∃ e, (OV2640.set_image_format T env fmt s).1 = Except.error e ∧
     ((OV2640.set_image_format T env fmt s).2).configuration = s.configuration) := by
  unfold OV2640.set_image_format
  refine seqU_cases (write_register_config env 0xFF 0x01 s) ?_
  intro s1 h1
  refine seqU_cases (by rw [write_register_config, h1]) ?_
  intro s2 h2
  simp only
  refine seqU_cases ?_ ?_
  · cases fmt with
    | JPEG => rw [jpeg_mode_tables_config]; exact h2
    | QVGA => rw [(write_registers_state env _ _).1]; exact h2
  · intro s9 h9
    exact Or.inl ⟨rfl, by simp only; rw [h9]⟩

/-- Outcome/configuration case analysis of `set_resolution`. -/
theorem set_resolution_cases (T : RegisterData) (env : Env) (res : Resolution)
    (s : DevState) :
    ((OV2640.set_resolution T env res s).1 = Except.ok () ∧
     ((OV2640.set_resolution T env res s).2).configuration =
       { s.configuration with resolution := res }) ∨
    (∃ e, (OV2640.set_resolution T env res s).1 = Except.error e ∧
     ((OV2640.set_resolution T env res s).2).configuration = s.configuration) := by
  unfold OV2640.set_resolution
  split
  · exact Or.inr ⟨_, rfl, rfl⟩
  · refine seqU_cases ((write_registers_state env _ s).1) ?_
    intro s1 h1
    exact Or.inl ⟨rfl, by simp only; rw [h1]⟩

/-- Outcome/configuration case analysis of `set_light_mode`. -/
theorem set_light_mode_cases (env : Env) (lm : LightMode) (s : DevState) :
    ((OV2640.set_light_mode env lm s).1 = Except.ok () ∧
     ((OV2640.set_light_mode env lm s).2).configuration =
       { s.configuration with light_mode := lm }) ∨
    (∃ e, (OV2640.set_light_mode env lm s).1 = Except.error e ∧
     ((OV2640.set_light_mode env lm s).2).configuration = s.configuration) := by
  unfold OV2640.set_light_mode
  refine seqU_cases ((write_registers_state env _ s).1) ?_
  intro s1 h1
  exact Or.inl ⟨rfl, by simp only; rw [h1]⟩

/-- Outcome/configuration case analysis of `set_saturation`. -/
theorem set_saturation_cases (env : Env) (sat : Saturation) (s : DevState) :
    ((OV2640.set_saturation env sat s).1 = Except.ok () ∧
     ((OV2640.set_saturation env sat s).2).configuration =
       { s.configuration with saturation := sat }) ∨
    (∃ e, (OV2640.set_saturation env sat s).1 = Except.error e ∧
     ((OV2640.set_saturation env sat s).2).configuration = s.configuration) := by
  unfold OV2640.set_saturation
  refine seqU_cases ((write_registers_state env _ s).1) ?_
  intro s1 h1
  exact Or.inl ⟨rfl, by simp only; rw [h1]⟩

/-- Outcome/configuration case analysis of `set_brightness`. -/
theorem set_brightness_cases (env : Env) (br : Brightness) (s : DevState) :
    ((OV2640.set_brightness env br s).1 = Except.ok () ∧
     ((OV2640.set_brightness env br s).2).configuration =
       { s.configuration with brightness := br }) ∨
    (∃ e, (OV2640.set_brightness env br s).1 = Except.error e ∧
     ((OV2640.set_brightness env br s).2).configuration = s.configuration) := by
  unfold OV2640.set_brightness
  refine seqU_cases ((write_registers_state env _ s).1) ?_
  intro s1 h1
  exact Or.inl ⟨rfl, by simp only; rw [h1]⟩

/-- Outcome/configuration case analysis of `set_contrast`. -/
theorem set_contrast_cases (env : Env) (ct : Contrast) (s : DevState) :
    ((OV2640.set_contrast env ct s).1 = Except.ok () ∧
     ((OV2640.set_contrast env ct s).2).configuration =
       { s.configuration with contrast := ct }) ∨
    (∃ e, (OV2640.set_contrast env ct s).1 = Except.error e ∧
     ((OV2640.set_contrast env ct s).2).configuration = s.configuration) := by
  unfold OV2640.set_contrast
  refine seqU_cases ((write_registers_state env _ s).1) ?_
  intro s1 h1
  exact Or.inl ⟨rfl, by simp only; rw [h1]⟩

/-- Outcome/configuration case analysis of `set_special_effect`. -/
theorem set_special_effect_cases (env : Env) (se : SpecialEffect) (s : DevState) :
    ((OV2640.set_special_effect env se s).1 = Except.ok () ∧
     ((OV2640.set_special_effect env se s).2).configuration =
       { s.configuration with special_effect := se }) ∨
    (∃ e, (OV2640.set_special_effect env se s).1 = Except.error e ∧
     ((OV2640.set_special_effect env se s).2).configuration = s.configuration) := by
  unfold OV2640.set_special_effect
  refine seqU_cases ((write_registers_state env _ s).1) ?_
  intro s1 h1
  exact Or.inl ⟨rfl, by simp only; rw [h1]⟩

theorem set_image_format_own_config (T : RegisterData) (env : Env) (s : DevState) :
    ((OV2640.set_image_format T env s.configuration.image_format s).2).configuration =
      s.configuration := by
  rcases set_image_format_cases T env s.configuration.image_format s with ⟨_, h⟩ | ⟨e, _, h⟩ <;>
    exact h

theorem set_light_mode_own_config (env : Env) (s : DevState) :
    ((OV2640.set_light_mode env s.configuration.light_mode s).2).configuration =
      s.configuration := by
  rcases set_light_mode_cases env s.configuration.light_mode s with ⟨_, h⟩ | ⟨e, _, h⟩ <;>
    exact h

theorem set_saturation_own_config (env : Env) (s : DevState) :
    ((OV2640.set_saturation env s.configuration.saturation s).2).configuration =
      s.configuration := by
  rcases set_saturation_cases env s.configuration.saturation s with ⟨_, h⟩ | ⟨e, _, h⟩ <;>
    exact h

theorem set_brightness_own_config (env : Env) (s : DevState) :
    ((OV2640.set_brightness env s.configuration.brightness s).2).configuration =
      s.configuration := by
  rcases set_brightness_cases env s.configuration.brightness s with ⟨_, h⟩ | ⟨e, _, h⟩ <;>
    exact h

theorem set_contrast_own_config (env : Env) (s : DevState) :
    ((OV2640.set_contrast env s.configuration.contrast s).2).configuration =
      s.configuration := by
  rcases set_contrast_cases env s.configuration.contrast s with ⟨_, h⟩ | ⟨e, _, h⟩ <;>
    exact h

theorem set_special_effect_own_config (env : Env) (s : DevState) :
    ((OV2640.set_special_effect env s.configuration.special_effect s).2).configuration =
      s.configuration := by
  rcases set_special_effect_cases env s.configuration.special_effect s with ⟨_, h⟩ | ⟨e, _, h⟩ <;>
    exact h

/-- `init` never changes the stored configuration: every sub-operation is
invoked with the value already stored for its field, so each commit rewrites
a field to its current value. -/
theorem init_config (T : RegisterData) (env : Env) (s : DevState) :
    ((OV2640.init T env s).2).configuration = s.configuration := by
  unfold OV2640.init
  refine seqU_config_of (set_image_format_own_config T env s) ?_
  intro s1 h1
  refine seqU_config_of (by rw [set_resolution_own_config, h1]) ?_
  intro s2 h2
  refine seqU_config_of (by rw [set_light_mode_own_config, h2]) ?_
  intro s3 h3
  refine seqU_config_of (by rw [set_saturation_own_config, h3]) ?_
  intro s4 h4
  refine seqU_config_of (by rw [set_brightness_own_config, h4]) ?_
  intro s5 h5
  refine seqU_config_of (by rw [set_contrast_own_config, h5]) ?_
  intro s6 h6
  rw [set_special_effect_own_config, h6]

/-- `set_configuration` installs the new snapshot before running `init`, and
`init` never changes it afterwards: on every outcome (including failure) the
stored configuration is the new one. -/
theorem set_configuration_config (T : RegisterData) (env : Env)
    (cfg : Configuration) (s : DevState) :
    ((OV2640.set_configuration T env cfg s).2).configuration = cfg := by
  unfold OV2640.set_configuration
  rw [init_config]

theorem seqU_error {α : Type} (m : Except OV2640Error Unit × DevState)
    (k : DevState → Except OV2640Error α × DevState) (e : OV2640Error)
    (h : m.1 = Except.error e) : seqU m k = (Except.error e, m.2) := by
  rcases m with ⟨res, s1⟩
  cases res with
  | ok a => exact absurd h (by simp)
  | error e1 =>
    simp only at h
    cases h
    rfl

/-- If the first k writes of a register table go through and the transport
fails the (k+1)-st, `write_registers` returns the transport failure having
attempted exactly k+1 bus writes. -/
theorem write_registers_fail_at (env : Env) (l : List (Nat × Nat)) :
    ∀ (k : Nat) (s : DevState), s.i2c = true → k < l.length →
    (∀ i, i < k → env.i2cOk (s.i2cOps + i) = true) →
    env.i2cOk (s.i2cOps + k) = false →
    (OV2640.write_registers env l s).1 = Except.error OV2640Error.I2CError ∧
    ((OV2640.write_registers env l s).2).i2cOps = s.i2cOps + k + 1 := by
  induction l with
  | nil =>
    intro k s _ hk
    simp at hk
  | cons r rest ih =>
    intro k s hi hk hfirst hfail
    unfold OV2640.write_registers
    cases k with
    | zero =>
      have hfail0 : env.i2cOk s.i2cOps = false := by simpa using hfail
      have h1 : OV2640.write_register env r.1 r.2 s =
          (Except.error OV2640Error.I2CError,
           { s with
             i2cOps := s.i2cOps + 1
             events := s.events ++ [Event.i2cWrite (r.1 % 256) (r.2 % 256)] }) := by
        unfold OV2640.write_register
        simp [hi, hfail0]
      rw [h1, seqU_error _ _ _ rfl]
      exact ⟨rfl, rfl⟩
    | succ k1 =>
      have hok0 : env.i2cOk s.i2cOps = true := by simpa using hfirst 0 (Nat.succ_pos k1)
      have h1 : OV2640.write_register env r.1 r.2 s =
          (Except.ok (),
           { s with
             i2cOps := s.i2cOps + 1
             events := s.events ++ [Event.i2cWrite (r.1 % 256) (r.2 % 256)] }) := by
        unfold OV2640.write_register
        simp [hi, hok0]
      rw [h1]
      simp only [seqU]
      have hrec := ih k1
        { s with
          i2cOps := s.i2cOps + 1
          events := s.events ++ [Event.i2cWrite (r.1 % 256) (r.2 % 256)] }
        hi (by simpa using hk)
        (fun i hik => by
          have := hfirst (i + 1) (by omega)
          simpa [Nat.add_assoc, Nat.add_comm, Nat.add_left_comm] using this)
        (by
          have heq : s.i2cOps + 1 + k1 = s.i2cOps + (k1 + 1) := by omega
          simpa [heq] using hfail)
      refine ⟨hrec.1, ?_⟩
      rw [hrec.2]
      simp only
      omega

theorem dfe_refl (s : DevState) : DelayFreeExt s s :=
  ⟨[], by simp, rfl⟩

theorem dfe_trans {s1 s2 s3 : DevState} (h1 : DelayFreeExt s1 s2)
    (h2 : DelayFreeExt s2 s3) : DelayFreeExt s1 s3 := by
  obtain ⟨t1, ht1, hd1⟩ := h1
  obtain ⟨t2, ht2, hd2⟩ := h2
  exact ⟨t1 ++ t2, by rw [ht2, ht1, List.append_assoc],
    by rw [delayCount_append, hd1, hd2]⟩

theorem seqU_dfe {α : Type} {m : Except OV2640Error Unit × DevState}
    {k : DevState → Except OV2640Error α × DevState} {s : DevState}
    (hm : DelayFreeExt s m.2)
    (hk : ∀ s1, DelayFreeExt s1 ((k s1).2)) :
    DelayFreeExt s ((seqU m k).2) := by
  rcases m with ⟨res, s1⟩
  cases res with
  | ok a => exact dfe_trans hm (hk s1)
  | error e => exact hm

theorem write_register_dfe (env : Env) (r v : Nat) (s : DevState) :
    DelayFreeExt s ((OV2640.write_register env r v s).2) := by
  rw [write_register_snd]
  split
  · exact ⟨[Event.i2cWrite (r % 256) (v % 256)], rfl, rfl⟩
  · exact dfe_refl s

theorem write_registers_dfe (env : Env) (l : List (Nat × Nat)) (s : DevState) :
    DelayFreeExt s ((OV2640.write_registers env l s).2) :=
  (write_registers_state env l s).2.2.2

theorem set_resolution_dfe (T : RegisterData) (env : Env) (res : Resolution)
    (s : DevState) : DelayFreeExt s ((OV2640.set_resolution T env res s).2) := by
  unfold OV2640.set_resolution
  split
  · exact dfe_refl s
  · exact seqU_dfe (write_registers_dfe env _ s) (fun s1 => dfe_refl s1)

theorem jpeg_mode_tables_dfe (T : RegisterData) (env : Env) (s : DevState) :
    DelayFreeExt s ((OV2640.jpeg_mode_tables T env s).2) := by
  unfold OV2640.jpeg_mode_tables
  refine seqU_dfe (write_registers_dfe env _ s) (fun s4 => ?_)
  refine seqU_dfe (write_registers_dfe env _ s4) (fun s5 => ?_)
  refine seqU_dfe (write_registers_dfe env _ s5) (fun s6 => ?_)
  refine seqU_dfe (write_register_dfe env _ _ s6) (fun s7 => ?_)
  refine seqU_dfe (write_register_dfe env _ _ s7) (fun s8 => ?_)
  exact set_resolution_dfe T env _ s8

/-- `set_resolution` on a non-JPEG device returns the format-mismatch error
with the state completely untouched. -/
theorem set_resolution_non_jpeg (T : RegisterData) (env : Env) (res : Resolution)
    (s : DevState) (h : s.configuration.image_format ≠ ImageFormat.JPEG) :
    OV2640.set_resolution T env res s =
      (Except.error OV2640Error.CannotSetImageSizeOnNonJPEG, s) := by
  unfold OV2640.set_resolution
  simp [h]

/-- Full evaluation of `set_image_format` with the QVGA argument when the
I2C peripheral is present and the transport never fails: both initial writes,
the settling delay, the QVGA bulk table, then the commit. -/
theorem set_image_format_qvga_ok (T : RegisterData) (env : Env)
    (hall : ∀ n, env.i2cOk n = true) (s : DevState) (hi : s.i2c = true) :
    OV2640.set_image_format T env ImageFormat.QVGA s =
      (Except.ok (),
       { s with
         configuration := { s.configuration with image_format := ImageFormat.QVGA }
         i2cOps := s.i2cOps + 2 + T.QVGA_REGISTERS.length
         events := s.events ++
           [Event.i2cWrite 0xFF 0x01, Event.i2cWrite 0x12 0x80, Event.delayMs 100] ++
           T.QVGA_REGISTERS.map (fun r => Event.i2cWrite (r.1 % 256) (r.2 % 256)) }) := by
  unfold OV2640.set_image_format OV2640.write_register
  simp only [hi, if_true, hall, seqU]
  rw [write_registers_ok env hall T.QVGA_REGISTERS
    { configuration := s.configuration, i2c := true, spi := s.spi,
      i2cOps := s.i2cOps + 1 + 1, spiOps := s.spiOps,
      events := s.events ++ [Event.i2cWrite (255 % 256) (1 % 256)] ++
        [Event.i2cWrite (18 % 256) (128 % 256)] ++ [Event.delayMs 100] } rfl]
  simp [List.append_assoc]

/-- Full evaluation of `image_size` when the SPI peripheral is present and
the three length reads succeed. -/
theorem image_size_eval (T : RegisterData) (env : Env) (s : DevState)
    (hspi : s.spi = true) (h1 : env.spiOk s.spiOps = true)
    (h2 : env.spiOk (s.spiOps + 1) = true) (h3 : env.spiOk (s.spiOps + 2) = true) :
    OV2640.image_size T env s =
      (Except.ok ((env.spiVal (s.spiOps + 2) % 256) * 65536 +
        (env.spiVal (s.spiOps + 1) % 256) * 256 + env.spiVal s.spiOps % 256),
       { s with
         spiOps := s.spiOps + 3
         events := s.events ++
           [Event.spiRead (T.FIFO_SIZE_1 % 256), Event.spiRead (T.FIFO_SIZE_2 % 256),
            Event.spiRead (T.FIFO_SIZE_3 % 256)] }) := by
  unfold OV2640.image_size OV2640.read_spi
  simp only [hspi, if_true, h1, h2, h3]
  simp [List.append_assoc]

/-- Byte recomposition: for bytes `b1`, `b2` the big-endian composition by
shift-and-or equals the positional sum. -/
theorem lor_bytes (b1 b2 b3 : Nat) (hb1 : b1 < 256) (hb2 : b2 < 256) :
    b3 <<< 16 ||| b2 <<< 8 ||| b1 = b3 * 65536 + b2 * 256 + b1 := by
  have h8 : (2 : Nat) ^ 8 = 256 := by norm_num
  have h16 : (2 : Nat) ^ 16 = 65536 := by norm_num
  have hb1p : b1 < 2 ^ 8 := by rw [h8]; exact hb1
  have hb2p : b2 < 2 ^ 8 := by rw [h8]; exact hb2
  have hinner : 2 ^ 8 * b2 + b1 < 2 ^ 16 := by rw [h8, h16]; omega
  have e1 : b3 * 65536 + b2 * 256 + b1 = 2 ^ 16 * b3 + (2 ^ 8 * b2 + b1) := by
    rw [h8, h16]; omega
  rw [e1]
  apply Nat.eq_of_testBit_eq
  intro j
  rw [Nat.testBit_lor, Nat.testBit_lor, Nat.testBit_shiftLeft, Nat.testBit_shiftLeft,
    Nat.testBit_mul_pow_two_add _ hinner j]
  by_cases hj16 : j < 16
  · rw [if_pos hj16, Nat.testBit_mul_pow_two_add _ hb1p j]
    have d16 : decide (j ≥ 16) = false := by simp; omega
    rw [d16]
    by_cases hj8 : j < 8
    · have d8 : decide (j ≥ 8) = false := by simp; omega
      rw [if_pos hj8, d8]
      simp
    · have d8 : decide (j ≥ 8) = true := by simp; omega
      have hb1t : b1.testBit j = false :=
        Nat.testBit_lt_two_pow
          (lt_of_lt_of_le hb1p (Nat.pow_le_pow_right (by norm_num) (by omega)))
      rw [if_neg hj8, d8, hb1t]
      simp
  · rw [if_neg hj16]
    have d16 : decide (j ≥ 16) = true := by simp; omega
    have d8 : decide (j ≥ 8) = true := by simp; omega
    have hb1t : b1.testBit j = false :=
      Nat.testBit_lt_two_pow
        (lt_of_lt_of_le hb1p (Nat.pow_le_pow_right (by norm_num) (by omega)))
    have hb2t : b2.testBit (j - 8) = false :=
      Nat.testBit_lt_two_pow
        (lt_of_lt_of_le hb2p (Nat.pow_le_pow_right (by norm_num) (by omega)))
    rw [d16, d8, hb1t, hb2t]
    simp

theorem write_register_ok_eval (env : Env) (r v : Nat) (s : DevState)
    (hi : s.i2c = true) (hok : env.i2cOk s.i2cOps = true) :
    OV2640.write_register env r v s =
      (Except.ok (),
       { s with
         i2cOps := s.i2cOps + 1
         events := s.events ++ [Event.i2cWrite (r % 256) (v % 256)] }) := by
  unfold OV2640.write_register
  simp [hi, hok]

theorem read_spi_ok_lt (env : Env) (a : Nat) (s : DevState) :
    ∀ {v : Nat} {s1 : DevState},
    OV2640.read_spi env a s = (Except.ok v, s1) → v < 256 := by
  intro v s1 h
  unfold OV2640.read_spi at h
  by_cases hs : s.spi = true
  · rw [if_pos hs] at h
    by_cases ho : env.spiOk s.spiOps = true
    · rw [if_pos ho] at h
      have hv := congrArg Prod.fst h
      simp only [Except.ok.injEq] at hv
      rw [← hv]
      exact Nat.mod_lt _ (by norm_num)
    · rw [if_neg ho] at h
      exact absurd (congrArg Prod.fst h) (by simp)
  · rw [if_neg hs] at h
    exact absurd (congrArg Prod.fst h) (by simp)

theorem image_size_pair_le (T : RegisterData) (env : Env) (s : DevState) :
    ∀ {n : Nat} {s1 : DevState},
    OV2640.image_size T env s = (Except.ok n, s1) → n ≤ 0xFFFFFF := by
  intro n s' h
  unfold OV2640.image_size at h
  split at h
  · exact absurd (congrArg (fun p => p.1) h) (by simp)
  · rename_i len1 s1 heq1
    split at h
    · exact absurd (congrArg (fun p => p.1) h) (by simp)
    · rename_i len2 s2 heq2
      split at h
      · exact absurd (congrArg (fun p => p.1) h) (by simp)
      · rename_i len3 s3 heq3
        have hv1 := read_spi_ok_lt env T.FIFO_SIZE_1 s heq1
        have hv2 := read_spi_ok_lt env T.FIFO_SIZE_2 s1 heq2
        have hv3 := read_spi_ok_lt env T.FIFO_SIZE_3 s2 heq3
        have hn : len3 * 65536 + len2 * 256 + len1 = n := by
          have := congrArg (fun p => p.1) h
          simpa using this
        omega

theorem seqU_ok {α : Type} (s1 : DevState)
    (k : DevState → Except OV2640Error α × DevState) :
    seqU (Except.ok (), s1) k = k s1 := rfl

theorem seqU_err {α : Type} (e : OV2640Error) (s1 : DevState)
    (k : DevState → Except OV2640Error α × DevState) :
    seqU (Except.error e, s1) k = (Except.error e, s1) := rfl

theorem err_config_of_cases {r : Except OV2640Error Unit × DevState}
    {c d : Configuration}
    (h : (r.1 = Except.ok () ∧ (r.2).configuration = d) ∨
      (∃ e, r.1 = Except.error e ∧ (r.2).configuration = c))
    {e : OV2640Error} (he : r.1 = Except.error e) : (r.2).configuration = c := by
  rcases h with ⟨hok, _⟩ | ⟨e1, _, hcfg⟩
  · rw [hok] at he
    exact absurd he (by simp)
  · exact hcfg

/-- C10: for every builder, `build()` always succeeds (it is a total
function), and every field left unset resolves to its documented default
independent of the other fields' values: image format JPEG, resolution
1024×768, light mode Auto, saturation/brightness/contrast level 0, special
effect Normal. -/
theorem C10_build_unset_defaults (b : ConfigurationBuilder) :
    (b.image_format = none → b.build.image_format = ImageFormat.JPEG) ∧
    (b.resolution = none → b.build.resolution = Resolution.R1024x768) ∧
    (b.light_mode = none → b.build.light_mode = LightMode.Auto) ∧
    (b.saturation = none → b.build.saturation = Saturation.Saturation0) ∧
    (b.brightness = none → b.build.brightness = Brightness.Brightness0) ∧
    (b.contrast = none → b.build.contrast = Contrast.Contrast0) ∧
    (b.special_effect = none → b.build.special_effect = SpecialEffect.Normal) := by
  refine ⟨?_, ?_, ?_, ?_, ?_, ?_, ?_⟩ <;>
    · intro h
      simp [ConfigurationBuilder.build, h]

/-- Witness for C10 at the all-unset builder `ConfigurationBuilder::new()`. -/
theorem C10_build_unset_defaults_witness :
    ConfigurationBuilder.new.build.image_format = ImageFormat.JPEG ∧
    ConfigurationBuilder.new.build.resolution = Resolution.R1024x768 ∧
    ConfigurationBuilder.new.build.light_mode = LightMode.Auto ∧
    ConfigurationBuilder.new.build.saturation = Saturation.Saturation0 ∧
    ConfigurationBuilder.new.build.brightness = Brightness.Brightness0 ∧
    ConfigurationBuilder.new.build.contrast = Contrast.Contrast0 ∧
    ConfigurationBuilder.new.build.special_effect = SpecialEffect.Normal := by
  have h := C10_build_unset_defaults ConfigurationBuilder.new
  exact ⟨h.1 rfl, h.2.1 rfl, h.2.2.1 rfl, h.2.2.2.1 rfl, h.2.2.2.2.1 rfl,
    h.2.2.2.2.2.1 rfl, h.2.2.2.2.2.2 rfl⟩

/-- C6: on a device whose stored image format is not JPEG, `set_resolution`
returns the format-mismatch failure and leaves the device state (snapshot,
peripherals, counters, event trace — hence zero configuration-channel
writes) completely unchanged, for every requested resolution. -/
theorem C6_set_resolution_non_jpeg_rejected (T : RegisterData) (env : Env)
    (res : Resolution) (s : DevState)
    (h : s.configuration.image_format ≠ ImageFormat.JPEG) :
    OV2640.set_resolution T env res s =
      (Except.error OV2640Error.CannotSetImageSizeOnNonJPEG, s) :=
  set_resolution_non_jpeg T env res s h

/-- Witness for C6 on a QVGA-configured device. -/
theorem C6_set_resolution_non_jpeg_rejected_witness :
    sQVGA.configuration.image_format ≠ ImageFormat.JPEG ∧
    OV2640.set_resolution T0 envOkAll Resolution.R640x480 sQVGA =
      (Except.error OV2640Error.CannotSetImageSizeOnNonJPEG, sQVGA) :=
  ⟨by decide,
   C6_set_resolution_non_jpeg_rejected T0 envOkAll Resolution.R640x480 sQVGA (by decide)⟩

/-- C5: on a device whose stored configuration has image format QVGA and
whose I2C transport never fails, `init()` still fails: it applies the two
initial writes, the settling delay and the QVGA bulk table, then returns the
format-mismatch error from the resolution step; no further writes (light
mode, saturation, brightness, contrast, special effect) are issued, and the
stored configuration is unchanged. -/
theorem C5_init_qvga_always_fails (T : RegisterData) (env : Env) (s : DevState)
    (hq : s.configuration.image_format = ImageFormat.QVGA) (hi : s.i2c = true)
    (hall : ∀ n, env.i2cOk n = true) :
    (OV2640.init T env s).1 = Except.error OV2640Error.CannotSetImageSizeOnNonJPEG ∧
    ((OV2640.init T env s).2).events = s.events ++
      [Event.i2cWrite 0xFF 0x01, Event.i2cWrite 0x12 0x80, Event.delayMs 100] ++
      T.QVGA_REGISTERS.map (fun r => Event.i2cWrite (r.1 % 256) (r.2 % 256)) ∧
    ((OV2640.init T env s).2).configuration = s.configuration := by
  unfold OV2640.init
  rw [hq]
  rw [set_image_format_qvga_ok T env hall s hi, seqU_ok]
  have hne : ({ s with
      configuration := { s.configuration with image_format := ImageFormat.QVGA }
      i2cOps := s.i2cOps + 2 + T.QVGA_REGISTERS.length
      events := s.events ++
        [Event.i2cWrite 0xFF 0x01, Event.i2cWrite 0x12 0x80, Event.delayMs 100] ++
        T.QVGA_REGISTERS.map (fun r => Event.i2cWrite (r.1 % 256) (r.2 % 256)) } :
      DevState).configuration.image_format ≠ ImageFormat.JPEG := by simp
  rw [set_resolution_non_jpeg T env _ _ hne, seqU_err]
  refine ⟨rfl, rfl, ?_⟩
  show ({ s.configuration with image_format := ImageFormat.QVGA } : Configuration) =
    s.configuration
  rw [← hq]

/-- Witness for C5 on a concrete QVGA device with an all-success transport. -/
theorem C5_init_qvga_always_fails_witness :
    sQVGA.configuration.image_format = ImageFormat.QVGA ∧ sQVGA.i2c = true ∧
    (∀ n, envOkAll.i2cOk n = true) ∧
    (OV2640.init T0 envOkAll sQVGA).1 =
      Except.error OV2640Error.CannotSetImageSizeOnNonJPEG := by
  have h := C5_init_qvga_always_fails T0 envOkAll sQVGA rfl rfl (fun _ => rfl)
  exact ⟨rfl, rfl, fun _ => rfl, h.1⟩

/-- C1: the claim asserts that with an always-succeeding transport,
`set_image_format(JPEG)` succeeds and commits the JPEG format for every
previously stored format, in particular QVGA.  The code violates this: the
stored format is updated only after the inner
`set_resolution(self.configuration.resolution)` call, which still sees the
old (QVGA) format and rejects with the format-mismatch error, so switching
QVGA→JPEG always fails.  This theorem evaluates the model at that failing
input. -/
theorem C1_set_image_format_jpeg_from_qvga_fails :
    (OV2640.set_image_format T0 envOkAll ImageFormat.JPEG sQVGA).1 =
      Except.error OV2640Error.CannotSetImageSizeOnNonJPEG ∧
    ((OV2640.set_image_format T0 envOkAll ImageFormat.JPEG sQVGA).2).configuration =
      cfgQVGA := by
  exact ⟨rfl, rfl⟩

/-- C2 counterexample: the claim states that on failure the stored
configuration snapshot stays at its last fully-committed state, including
for `set_configuration`.  But `set_configuration` assigns the new snapshot
before running `init`: with a transport whose every I2C write fails, no
write ever succeeds, yet after the failing call the stored snapshot is the
new configuration, not the previous (fully-committed) one. -/
theorem C2_set_configuration_counterexample :
    (OV2640.set_configuration T0 envI2cFail cfgQVGA sJPEG).1 =
      Except.error OV2640Error.I2CError ∧
    ((OV2640.set_configuration T0 envI2cFail cfgQVGA sJPEG).2).configuration = cfgQVGA ∧
    cfgQVGA ≠ sJPEG.configuration := by
  exact ⟨rfl, rfl, by decide⟩

/-- C2 (amended): for every individual setting operation, on the first
failing write the operation aborts immediately (exactly the failing write
and its predecessors are attempted) and returns that transport failure, and
the snapshot field for that setting is not updated — shown explicitly for
`set_saturation` (with an exact attempted-write count) and for error
outcomes of every other setter.  `set_configuration`, however, installs the
new snapshot before re-running `init`, so on every outcome (including
failure) the stored snapshot is the new configuration rather than the last
fully-committed one. -/
theorem C2_commit_on_success_only (T : RegisterData) (env : Env) (sat : Saturation)
    (cfg : Configuration) (fmt : ImageFormat) (res : Resolution) (lm : LightMode)
    (br : Brightness) (ct : Contrast) (se : SpecialEffect) (s : DevState) (k : Nat)
    (hi : s.i2c = true) (hk : k < 6)
    (hfirst : ∀ i, i < k → env.i2cOk (s.i2cOps + i) = true)
    (hfail : env.i2cOk (s.i2cOps + k) = false) :
    ((OV2640.set_saturation env sat s).1 = Except.error OV2640Error.I2CError ∧
     ((OV2640.set_saturation env sat s).2).configuration = s.configuration ∧
     ((OV2640.set_saturation env sat s).2).i2cOps = s.i2cOps + k + 1) ∧
    ((OV2640.set_configuration T env cfg s).2).configuration = cfg ∧
    (∀ e, (OV2640.set_image_format T env fmt s).1 = Except.error e →
      ((OV2640.set_image_format T env fmt s).2).configuration = s.configuration) ∧
    (∀ e, (OV2640.set_resolution T env res s).1 = Except.error e →
      ((OV2640.set_resolution T env res s).2).configuration = s.configuration) ∧
    (∀ e, (OV2640.set_light_mode env lm s).1 = Except.error e →
      ((OV2640.set_light_mode env lm s).2).configuration = s.configuration) ∧
    (∀ e, (OV2640.set_brightness env br s).1 = Except.error e →
      ((OV2640.set_brightness env br s).2).configuration = s.configuration) ∧
    (∀ e, (OV2640.set_contrast env ct s).1 = Except.error e →
      ((OV2640.set_contrast env ct s).2).configuration = s.configuration) ∧
    (∀ e, (OV2640.set_special_effect env se s).1 = Except.error e →
      ((OV2640.set_special_effect env se s).2).configuration = s.configuration) := by
  refine ⟨?_, set_configuration_config T env cfg s,
    fun e he => err_config_of_cases (set_image_format_cases T env fmt s) he,
    fun e he => err_config_of_cases (set_resolution_cases T env res s) he,
    fun e he => err_config_of_cases (set_light_mode_cases env lm s) he,
    fun e he => err_config_of_cases (set_brightness_cases env br s) he,
    fun e he => err_config_of_cases (set_contrast_cases env ct s) he,
    fun e he => err_config_of_cases (set_special_effect_cases env se s) he⟩
  have hlen : k < ([(0xFF, 0x00), (0x7C, 0x00), (0x7D, 0x02), (0x7C, 0x04)] ++
      saturation_registers sat).length := by
    cases sat <;> simpa [saturation_registers] using hk
  have hfat := write_registers_fail_at env
    ([(0xFF, 0x00), (0x7C, 0x00), (0x7D, 0x02), (0x7C, 0x04)] ++
      saturation_registers sat) k s hi hlen hfirst hfail
  unfold OV2640.set_saturation
  rw [seqU_error _ _ _ hfat.1]
  exact ⟨rfl, (write_registers_state env _ s).1, hfat.2⟩

/-- Witness for C2: transport failing from the third write onward; the
saturation setter aborts after three attempted writes without committing,
while a failing `set_configuration` still leaves the new snapshot stored. -/
theorem C2_commit_on_success_only_witness :
    (OV2640.set_saturation envFailAt2 Saturation.Saturation3 sJPEG).1 =
      Except.error OV2640Error.I2CError ∧
    ((OV2640.set_saturation envFailAt2 Saturation.Saturation3 sJPEG).2).configuration =
      cfgDefault ∧
    ((OV2640.set_saturation envFailAt2 Saturation.Saturation3 sJPEG).2).i2cOps = 3 ∧
    ((OV2640.set_configuration T0 envFailAt2 cfgQVGA sJPEG).2).configuration = cfgQVGA ∧
    ((OV2640.set_light_mode envFailAt2 LightMode.Sunny sJPEG).2).configuration =
      cfgDefault := by
  have h := C2_commit_on_success_only T0 envFailAt2 Saturation.Saturation3 cfgQVGA
    ImageFormat.JPEG Resolution.R640x480 LightMode.Sunny Brightness.Brightness0
    Contrast.Contrast0 SpecialEffect.Normal sJPEG 2 rfl (by omega)
    (by
      intro i hilt
      interval_cases i <;> rfl)
    rfl
  exact ⟨h.1.1, h.1.2.1, h.1.2.2, h.2.1, h.2.2.2.2.1 OV2640Error.I2CError rfl⟩

/-- C3 counterexample: with length registers all reading 0xFF, `image_size`
successfully returns 0xFFFFFF, which exceeds the frame-buffer capacity
constant MAX_FIFO_SIZE (0x5FFFF) — the code performs no clamping, so the
claimed bound is false for some register byte values. -/
theorem C3_image_size_exceeds_fifo_counterexample :
    (OV2640.image_size T0 envFF sJPEG).1 = Except.ok 0xFFFFFF ∧
    ¬ (0xFFFFFF ≤ MAX_FIFO_SIZE) := by
  exact ⟨rfl, by norm_num [MAX_FIFO_SIZE]⟩

/-- C3 (amended): every value `image_size()` returns successfully is at most
0xFFFFFF (the three bytes are recomposed into a 24-bit value); the code does
not enforce the MAX_FIFO_SIZE (0x5FFFF) bound, which register bytes can
exceed. -/
theorem C3_image_size_24bit_bound (T : RegisterData) (env : Env) (s : DevState)
    (n : Nat) (h : (OV2640.image_size T env s).1 = Except.ok n) : n ≤ 0xFFFFFF := by
  rcases hp : OV2640.image_size T env s with ⟨res, s1⟩
  rw [hp] at h
  simp only at h
  subst h
  exact image_size_pair_le T env s hp

/-- Witness for C3 (amended) at the maximal register bytes. -/
theorem C3_image_size_24bit_bound_witness : (0xFFFFFF : Nat) ≤ 0xFFFFFF :=
  C3_image_size_24bit_bound T0 envFF sJPEG 0xFFFFFF rfl

/-- C8: for all byte values b1 (first length-register read), b2 (second),
b3 (third), `image_size()` returns exactly (b3<<16) | (b2<<8) | b1. -/
theorem C8_image_size_recomposition (T : RegisterData) (env : Env) (s : DevState)
    (b1 b2 b3 : Nat) (hspi : s.spi = true) (h1 : env.spiOk s.spiOps = true)
    (h2 : env.spiOk (s.spiOps + 1) = true) (h3 : env.spiOk (s.spiOps + 2) = true)
    (hb1 : env.spiVal s.spiOps % 256 = b1) (hb2 : env.spiVal (s.spiOps + 1) % 256 = b2)
    (hb3 : env.spiVal (s.spiOps + 2) % 256 = b3) :
    (OV2640.image_size T env s).1 = Except.ok (b3 <<< 16 ||| b2 <<< 8 ||| b1) := by
  have hb1lt : b1 < 256 := hb1 ▸ Nat.mod_lt _ (by norm_num)
  have hb2lt : b2 < 256 := hb2 ▸ Nat.mod_lt _ (by norm_num)
  rw [image_size_eval T env s hspi h1 h2 h3]
  simp only
  rw [hb1, hb2, hb3, lor_bytes b1 b2 b3 hb1lt hb2lt]

/-- Witness for C8: reads 0x01, 0x02, 0x03 yield length 0x030201. -/
theorem C8_image_size_recomposition_witness :
    (OV2640.image_size T0 env123 sJPEG).1 = Except.ok 0x030201 := by
  have h := C8_image_size_recomposition T0 env123 sJPEG 1 2 3 rfl rfl rfl rfl rfl rfl rfl
  rw [h]
  rfl

/-- C7: when the destination buffer is shorter than the measured image size,
`read_image` fails with the buffer-size error; the final state equality
shows that only the three length-register reads happened — no burst-command
write, no burst transfer — and the returned buffer is the untouched input
buffer. -/
theorem C7_read_image_short_buffer (T : RegisterData) (env : Env)
    (buffer : List Nat) (s : DevState) (hspi : s.spi = true)
    (h1 : env.spiOk s.spiOps = true) (h2 : env.spiOk (s.spiOps + 1) = true)
    (h3 : env.spiOk (s.spiOps + 2) = true)
    (hlen : buffer.length < (env.spiVal (s.spiOps + 2) % 256) * 65536 +
      (env.spiVal (s.spiOps + 1) % 256) * 256 + env.spiVal s.spiOps % 256) :
    OV2640.read_image T env buffer s =
      ((Except.error OV2640Error.InvalidBufferSize, buffer),
       { s with
         spiOps := s.spiOps + 3
         events := s.events ++
           [Event.spiRead (T.FIFO_SIZE_1 % 256), Event.spiRead (T.FIFO_SIZE_2 % 256),
            Event.spiRead (T.FIFO_SIZE_3 % 256)] }) := by
  unfold OV2640.read_image
  rw [image_size_eval T env s hspi h1 h2 h3]
  simp only
  rw [if_pos hlen]

/-- Witness for C7: an empty destination buffer against a 0xFFFFFF-byte
measured image. -/
theorem C7_read_image_short_buffer_witness :
    OV2640.read_image T0 envFF [] sJPEG =
      ((Except.error OV2640Error.InvalidBufferSize, []),
       { sJPEG with
         spiOps := sJPEG.spiOps + 3
         events := sJPEG.events ++
           [Event.spiRead (T0.FIFO_SIZE_1 % 256), Event.spiRead (T0.FIFO_SIZE_2 % 256),
            Event.spiRead (T0.FIFO_SIZE_3 % 256)] }) :=
  C7_read_image_short_buffer T0 envFF [] sJPEG rfl rfl rfl rfl (by decide)

/-- C9: after the SPI handle has been taken via `take_spi`, every operation
requiring the streaming channel (`flush_fifo`, `start_capture`,
`is_capture_done`, `image_size`, `read_image`) deterministically returns the
channel-unavailable failure `NoSpiPeripheral`. -/
theorem C9_taken_spi_operations_fail (T : RegisterData) (env : Env) (s : DevState)
    (buffer : List Nat) :
    (OV2640.flush_fifo T env (OV2640.take_spi s).2).1 =
      Except.error OV2640Error.NoSpiPeripheral ∧
    (OV2640.start_capture T env (OV2640.take_spi s).2).1 =
      Except.error OV2640Error.NoSpiPeripheral ∧
    (OV2640.is_capture_done T env (OV2640.take_spi s).2).1 =
      Except.error OV2640Error.NoSpiPeripheral ∧
    (OV2640.image_size T env (OV2640.take_spi s).2).1 =
      Except.error OV2640Error.NoSpiPeripheral ∧
    ((OV2640.read_image T env buffer (OV2640.take_spi s).2).1).1 =
      Except.error OV2640Error.NoSpiPeripheral := by
  refine ⟨?_, ?_, ?_, ?_, ?_⟩ <;>
    simp [OV2640.take_spi, OV2640.flush_fifo, OV2640.start_capture,
      OV2640.is_capture_done, OV2640.image_size, OV2640.read_image,
      OV2640.write_spi, OV2640.read_spi, seqU]

/-- C4 counterexample: with a transport whose I2C writes fail, the very
first write of `set_image_format` aborts the call before `delay_ms(100)` is
reached, so the settling delay happens zero times — not exactly once
regardless of the outcome of the preceding register writes, as claimed. -/
theorem C4_delay_skipped_counterexample :
    (OV2640.set_image_format T0 envI2cFail ImageFormat.JPEG sJPEG).1 =
      Except.error OV2640Error.I2CError ∧
    delayCount
      ((OV2640.set_image_format T0 envI2cFail ImageFormat.JPEG sJPEG).2).events = 0 := by
  exact ⟨rfl, rfl⟩

/-- C4 (amended): in every `set_image_format` call in which the two initial
register writes succeed, the 100 ms settling delay is performed exactly once
and before any mode-table register write, for either format; if the I2C
peripheral is absent or either initial write fails, the call aborts and the
delay is not performed at all. -/
theorem C4_settling_delay_placement (T : RegisterData) (env : Env)
    (fmt : ImageFormat) (s : DevState) :
    (s.i2c = true → env.i2cOk s.i2cOps = true → env.i2cOk (s.i2cOps + 1) = true →
      ∃ post, ((OV2640.set_image_format T env fmt s).2).events =
          s.events ++
            [Event.i2cWrite 0xFF 0x01, Event.i2cWrite 0x12 0x80, Event.delayMs 100] ++
            post ∧
        delayCount post = 0) ∧
    ((s.i2c = false ∨ env.i2cOk s.i2cOps = false ∨ env.i2cOk (s.i2cOps + 1) = false) →
      delayCount ((OV2640.set_image_format T env fmt s).2).events =
        delayCount s.events) := by
  constructor
  · intro hi hok1 hok2
    unfold OV2640.set_image_format
    rw [write_register_ok_eval env 0xFF 0x01 s hi hok1, seqU_ok,
      write_register_ok_eval env 0x12 0x80
        { s with
          i2cOps := s.i2cOps + 1
          events := s.events ++ [Event.i2cWrite (0xFF % 256) (0x01 % 256)] } hi hok2,
      seqU_ok]
    cases fmt with
    | JPEG =>
      obtain ⟨t, ht, hd⟩ := seqU_dfe
        (k := fun s9 =>
          (Except.ok (),
           { s9 with
             configuration :=
               { s9.configuration with image_format := ImageFormat.JPEG } }))
        (jpeg_mode_tables_dfe T env
          { s with
            i2cOps := s.i2cOps + 1 + 1
            events := s.events ++ [Event.i2cWrite (0xFF % 256) (0x01 % 256)] ++
              [Event.i2cWrite (0x12 % 256) (0x80 % 256)] ++ [Event.delayMs 100] })
        (fun s9 => ⟨[], by simp, rfl⟩)
      exact ⟨t, ht.trans (by simp [List.append_assoc]), hd⟩
    | QVGA =>
      obtain ⟨t, ht, hd⟩ := seqU_dfe
        (k := fun s9 =>
          (Except.ok (),
           { s9 with
             configuration :=
               { s9.configuration with image_format := ImageFormat.QVGA } }))
        (write_registers_dfe env T.QVGA_REGISTERS
          { s with
            i2cOps := s.i2cOps + 1 + 1
            events := s.events ++ [Event.i2cWrite (0xFF % 256) (0x01 % 256)] ++
              [Event.i2cWrite (0x12 % 256) (0x80 % 256)] ++ [Event.delayMs 100] })
        (fun s9 => ⟨[], by simp, rfl⟩)
      exact ⟨t, ht.trans (by simp [List.append_assoc]), hd⟩
  · intro hdisj
    unfold OV2640.set_image_format
    by_cases hi : s.i2c = true
    · by_cases hok1 : env.i2cOk s.i2cOps = true
      · have hok2 : env.i2cOk (s.i2cOps + 1) = false := by
          rcases hdisj with h | h | h
          · simp [hi] at h
          · simp [hok1] at h
          · exact h
        rw [write_register_ok_eval env 0xFF 0x01 s hi hok1, seqU_ok]
        have hfail2 : OV2640.write_register env 0x12 0x80
            { s with
              i2cOps := s.i2cOps + 1
              events := s.events ++ [Event.i2cWrite (0xFF % 256) (0x01 % 256)] } =
            (Except.error OV2640Error.I2CError,
             { s with
               i2cOps := s.i2cOps + 1 + 1
               events := s.events ++ [Event.i2cWrite (0xFF % 256) (0x01 % 256)] ++
                 [Event.i2cWrite (0x12 % 256) (0x80 % 256)] }) := by
          unfold OV2640.write_register
          simp [hi, hok2]
        rw [hfail2, seqU_err]
        simp [delayCount_append, delayCount]
      · have hok1f : env.i2cOk s.i2cOps = false := by simpa using hok1
        have hfail1 : OV2640.write_register env 0xFF 0x01 s =
            (Except.error OV2640Error.I2CError,
             { s with
               i2cOps := s.i2cOps + 1
               events := s.events ++ [Event.i2cWrite (0xFF % 256) (0x01 % 256)] }) := by
          unfold OV2640.write_register
          simp [hi, hok1f]
        rw [hfail1, seqU_err]
        simp [delayCount_append, delayCount]
    · have hif : s.i2c = false := by simpa using hi
      have hfail1 : OV2640.write_register env 0xFF 0x01 s =
          (Except.error OV2640Error.NoI2cPeripheral, s) := by
        unfold OV2640.write_register
        simp [hif]
      rw [hfail1, seqU_err]

/-- Witness for C4 (amended): both conjuncts instantiated — a successful
switch places the delay right after the two initial writes, and an
all-failing transport performs no delay. -/
theorem C4_settling_delay_placement_witness :
    (∃ post, ((OV2640.set_image_format T0 envOkAll ImageFormat.QVGA sJPEG).2).events =
        sJPEG.events ++
          [Event.i2cWrite 0xFF 0x01, Event.i2cWrite 0x12 0x80, Event.delayMs 100] ++
          post ∧
      delayCount post = 0) ∧
    delayCount ((OV2640.set_image_format T0 envI2cFail ImageFormat.JPEG sJPEG).2).events =
      delayCount sJPEG.events :=
  ⟨(C4_settling_delay_placement T0 envOkAll ImageFormat.QVGA sJPEG).1 rfl rfl rfl,
   (C4_settling_delay_placement T0 envI2cFail ImageFormat.JPEG sJPEG).2
     (Or.inr (Or.inl rfl))⟩
